import Mathlib

/-!
Shallow embedding of `src/types/public_key.rs` from the rpgp repository:
the `PublicKeyTrait` capability interface, its default capability-classifier
methods `is_signing_key` / `is_encryption_key`, and the forwarding
implementation of the trait for borrowed handles (`impl PublicKeyTrait for &T`).
-/

namespace Rpgp

/-- Modelled from the spec: the `PublicKeyAlgorithm` enumeration lives in
`crate::crypto::public_key`, which is not part of the sources here; the spec
describes it as a closed enumeration of exactly these fourteen tags
(§3, "Algorithm tag"). The variant names are those used by the `matches!`
patterns in `src/types/public_key.rs`. -/
inductive PublicKeyAlgorithm where
  | RSA
  | RSAEncrypt
  | RSASign
  | Elgamal
  | ElgamalEncrypt
  | DSA
  | ECDH
  | ECDSA
  | DiffieHellman
  | EdDSALegacy
  | Ed25519
  | Ed448
  | X25519
  | X448
  deriving DecidableEq, Repr

/-- Modelled from the spec: the crate error type (`crate::errors`) is not part
of the sources here; the spec's error taxonomy (§7) names an algorithm-mismatch
condition, a verification-failure condition, propagated I/O failures and
malformed-input failures. -/
inductive PgpError where
  | MismatchedAlgorithm
  | SignatureVerificationFailed
  | IoFailure (code : Nat)
  | MalformedInput (code : Nat)
  deriving DecidableEq, Repr

/-- `crate::errors::Result<T>`. -/
abbrev PgpResult (α : Type) : Type := Except PgpError α

/-- Opaque collaborator: `KeyVersion` (key-format version). -/
abbrev KeyVersion : Type := Nat

/-- Opaque collaborator: `Fingerprint` (content-derived identifier bytes). -/
abbrev Fingerprint : Type := List Nat

/-- Opaque collaborator: `KeyId` (primary-key identifier bytes). -/
abbrev KeyId : Type := List Nat

/-- Opaque collaborator: `HashAlgorithm` tag. -/
abbrev HashAlgorithm : Type := Nat

/-- Opaque collaborator: `SignatureBytes` (algorithm-specific signature encoding). -/
abbrev SignatureBytes : Type := List Nat

/-- Opaque collaborator: `PkeskBytes` (encrypted-session-key bytes). -/
abbrev PkeskBytes : Type := List Nat

/-- Opaque collaborator: `EskType` (requested session-key type). -/
abbrev EskType : Type := Nat

/-- Opaque collaborator: `PublicParams` (algorithm-specific public material). -/
abbrev PublicParams : Type := List Nat

/-- Opaque collaborator: `chrono::DateTime<Utc>` creation timestamp. -/
abbrev DateTime : Type := Nat

/-- Opaque collaborator: a caller-supplied `CryptoRng + Rng` random source. -/
abbrev Rng : Type := Nat

/-- A caller-supplied `io::Write` sink, represented by the bytes written so
far; a method taking `&mut impl io::Write` maps the sink's state and may fail. -/
abbrev Writer : Type := List Nat

/-- The `PublicKeyTrait` capability interface of `src/types/public_key.rs`,
embedded as a dictionary: one field per required method. A Rust trait object
implementing the interface is any value of this type. -/
structure PublicKeyTrait where
  version : KeyVersion
  fingerprint : Fingerprint
  key_id : KeyId
  algorithm : PublicKeyAlgorithm
  created_at : DateTime
  expiration : Option Nat
  verify_signature : HashAlgorithm → List Nat → SignatureBytes → PgpResult Unit
  encrypt : Rng → List Nat → EskType → PgpResult PkeskBytes
  serialize_for_hashing : Writer → PgpResult Writer
  public_params : PublicParams

/-- Default trait method `is_signing_key` from `src/types/public_key.rs`:
`matches!(self.algorithm(), RSA | RSASign | Elgamal | DSA | ECDSA |
EdDSALegacy | Ed25519 | Ed448)`. -/
def PublicKeyTrait.is_signing_key (self : PublicKeyTrait) : Bool :=
  match self.algorithm with
  | .RSA | .RSASign | .Elgamal | .DSA | .ECDSA | .EdDSALegacy | .Ed25519 | .Ed448 => true
  | _ => false

/-- Default trait method `is_encryption_key` from `src/types/public_key.rs`:
`matches!(self.algorithm(), RSA | RSAEncrypt | ECDH | DiffieHellman | Elgamal |
ElgamalEncrypt | X25519 | X448)`. -/
def PublicKeyTrait.is_encryption_key (self : PublicKeyTrait) : Bool :=
  match self.algorithm with
  | .RSA | .RSAEncrypt | .ECDH | .DiffieHellman | .Elgamal | .ElgamalEncrypt
  | .X25519 | .X448 => true
  | _ => false

/-- `impl<T: PublicKeyTrait> PublicKeyTrait for &T` from
`src/types/public_key.rs`: the borrowed-handle implementation, which defines
each of the ten required methods by forwarding the call, with all arguments
unchanged, to the referent `(*self)`. -/
def borrow (t : PublicKeyTrait) : PublicKeyTrait where
  version := t.version
  fingerprint := t.fingerprint
  key_id := t.key_id
  algorithm := t.algorithm
  created_at := t.created_at
  expiration := t.expiration
  verify_signature := fun hash data sig => t.verify_signature hash data sig
  encrypt := fun rng plain typ => t.encrypt rng plain typ
  serialize_for_hashing := fun writer => t.serialize_for_hashing writer
  public_params := t.public_params

/-- The eight algorithm tags listed in the `matches!` pattern of
`is_signing_key`. -/
def signingTags : List PublicKeyAlgorithm :=
  [.RSA, .RSASign, .Elgamal, .DSA, .ECDSA, .EdDSALegacy, .Ed25519, .Ed448]

/-- The eight algorithm tags listed in the `matches!` pattern of
`is_encryption_key`. -/
def encryptionTags : List PublicKeyAlgorithm :=
  [.RSA, .RSAEncrypt, .ECDH, .DiffieHellman, .Elgamal, .ElgamalEncrypt, .X25519, .X448]

/-- Modelled from the spec: the concrete key types implementing
`PublicKeyTrait` (the crate's key-material subsystem) are not part of the
sources here. Per §4.1/§4.2/§7, a concrete key carries the identity fields,
possibly a private component (secret-key types also implement the interface),
and delegates the actual cryptographic math to algorithm-specific collaborator
cores; its `verify_signature`/`encrypt` return an algorithm-mismatch failure
defensively when the key's tag lacks the capability, and its
`serialize_for_hashing` writes a canonical encoding of the public portion
only. -/
structure SpecKey where
  version : KeyVersion
  fingerprint : Fingerprint
  key_id : KeyId
  algorithm : PublicKeyAlgorithm
  created_at : DateTime
  expiration : Option Nat
  pub_params : PublicParams
  secret_material : Option (List Nat)
  verifyCore : HashAlgorithm → List Nat → SignatureBytes → PgpResult Unit
  encryptCore : Rng → List Nat → EskType → PgpResult PkeskBytes

/-- A numeric code for each algorithm tag, used in the modelled canonical
serialization. -/
def PublicKeyAlgorithm.code : PublicKeyAlgorithm → Nat
  | .RSA => 1
  | .RSAEncrypt => 2
  | .RSASign => 3
  | .Elgamal => 20
  | .ElgamalEncrypt => 16
  | .DSA => 17
  | .ECDH => 18
  | .ECDSA => 19
  | .DiffieHellman => 21
  | .EdDSALegacy => 22
  | .Ed25519 => 27
  | .Ed448 => 28
  | .X25519 => 25
  | .X448 => 26

/-- Modelled from the spec: the canonical "data used for hashing" of a key,
a stable byte encoding determined by the public fields alone (§4.1,
`serialize_for_hashing`). -/
def SpecKey.pubBytes (k : SpecKey) : List Nat :=
  k.version :: k.algorithm.code :: k.created_at ::
    (match k.expiration with | none => 0 | some d => d + 1) :: k.pub_params

/-- Modelled from the spec: packaging a concrete key as a value of the
capability interface, with the defensive capability checks of §4.2 and the
public-only serializer of §4.1. -/
def SpecKey.impl (k : SpecKey) : PublicKeyTrait where
  version := k.version
  fingerprint := k.fingerprint
  key_id := k.key_id
  algorithm := k.algorithm
  created_at := k.created_at
  expiration := k.expiration
  verify_signature := fun hash data sig =>
    if k.algorithm ∈ signingTags then k.verifyCore hash data sig
    else .error .MismatchedAlgorithm
  encrypt := fun rng plain typ =>
    if k.algorithm ∈ encryptionTags then k.encryptCore rng plain typ
    else .error .MismatchedAlgorithm
  serialize_for_hashing := fun writer => .ok (writer ++ k.pubBytes)
  public_params := k.pub_params

/-- A concrete Ed25519 key used as evaluation witness material. -/
def sampleEd25519 : SpecKey where
  version := 6
  fingerprint := [1, 2, 3]
  key_id := [1, 2]
  algorithm := .Ed25519
  created_at := 1700000000
  expiration := none
  pub_params := [10, 20, 30]
  secret_material := none
  verifyCore := fun _ _ _ => .ok ()
  encryptCore := fun _ _ _ => .error (.MalformedInput 0)

/-- A concrete X25519 key used as evaluation witness material. -/
def sampleX25519 : SpecKey where
  version := 6
  fingerprint := [4, 5, 6]
  key_id := [4, 5]
  algorithm := .X25519
  created_at := 1700000001
  expiration := some 365
  pub_params := [40, 50]
  secret_material := some [9, 9]
  verifyCore := fun _ _ _ => .ok ()
  encryptCore := fun _ _ _ => .ok [7, 7]

/-- A concrete DSA key used as evaluation witness material. -/
def sampleDSA : SpecKey where
  version := 4
  fingerprint := [7]
  key_id := [7]
  algorithm := .DSA
  created_at := 1600000000
  expiration := none
  pub_params := [1]
  secret_material := none
  verifyCore := fun _ _ _ => .error .SignatureVerificationFailed
  encryptCore := fun _ _ _ => .ok []

/-- A second Ed25519 key with the same public material as `sampleEd25519` but
a different private component and different collaborator cores. -/
def sampleEd25519Twin : SpecKey where
  version := 6
  fingerprint := [1, 2, 3]
  key_id := [1, 2]
  algorithm := .Ed25519
  created_at := 1700000000
  expiration := none
  pub_params := [10, 20, 30]
  secret_material := some [42]
  verifyCore := fun _ _ _ => .error .SignatureVerificationFailed
  encryptCore := fun _ _ _ => .ok [1]

end Rpgp

namespace Rpgp

/-- C1: for every key handle, `is_signing_key` returns true exactly when the
algorithm tag is one of RSA (general), RSA sign-only, Elgamal (general), DSA,
ECDSA, legacy EdDSA, Ed25519 or Ed448, and false for every other tag. -/
theorem is_signing_key_iff (k : PublicKeyTrait) :
    k.is_signing_key = true ↔
      (k.algorithm = .RSA ∨ k.algorithm = .RSASign ∨ k.algorithm = .Elgamal ∨
       k.algorithm = .DSA ∨ k.algorithm = .ECDSA ∨ k.algorithm = .EdDSALegacy ∨
       k.algorithm = .Ed25519 ∨ k.algorithm = .Ed448) := by
  unfold PublicKeyTrait.is_signing_key
  cases h : k.algorithm <;> simp [h]

/-- C2: for every key handle, `is_encryption_key` returns true exactly when the
algorithm tag is one of RSA (general), RSA encrypt-only, ECDH, generic
Diffie-Hellman, Elgamal (general), Elgamal encrypt-only, X25519 or X448, and
false for every other tag. -/
theorem is_encryption_key_iff (k : PublicKeyTrait) :
    k.is_encryption_key = true ↔
      (k.algorithm = .RSA ∨ k.algorithm = .RSAEncrypt ∨ k.algorithm = .ECDH ∨
       k.algorithm = .DiffieHellman ∨ k.algorithm = .Elgamal ∨
       k.algorithm = .ElgamalEncrypt ∨ k.algorithm = .X25519 ∨
       k.algorithm = .X448) := by
  unfold PublicKeyTrait.is_encryption_key
  cases h : k.algorithm <;> simp [h]

/-- C3: the borrowed-handle implementation forwards every operation of the
capability interface unchanged: for every key handle and every operation, the
call through the borrowed view returns exactly what the call on the referent
returns, for all inputs, failure cases included. -/
theorem borrow_forwards_all_operations (k : PublicKeyTrait) :
    (borrow k).version = k.version ∧
    (borrow k).fingerprint = k.fingerprint ∧
    (borrow k).key_id = k.key_id ∧
    (borrow k).algorithm = k.algorithm ∧
    (borrow k).created_at = k.created_at ∧
    (borrow k).expiration = k.expiration ∧
    (∀ hash data sig,
      (borrow k).verify_signature hash data sig = k.verify_signature hash data sig) ∧
    (∀ rng plain typ, (borrow k).encrypt rng plain typ = k.encrypt rng plain typ) ∧
    (∀ writer,
      (borrow k).serialize_for_hashing writer = k.serialize_for_hashing writer) ∧
    (borrow k).public_params = k.public_params := by
  refine ⟨rfl, rfl, rfl, rfl, rfl, rfl, ?_, ?_, ?_, rfl⟩ <;> intros <;> rfl

/-- C4: on every key whose algorithm tag is not signing-capable,
`verify_signature` fails with the algorithm-mismatch condition, for every hash
algorithm, message and signature bytes. -/
theorem verify_signature_mismatch_on_incapable (k : SpecKey)
    (h : k.impl.is_signing_key = false) :
    ∀ (hash : HashAlgorithm) (data : List Nat) (sig : SignatureBytes),
      k.impl.verify_signature hash data sig = .error .MismatchedAlgorithm := by
  intro hash data sig
  have htag : k.algorithm ∉ signingTags := by
    intro hmem
    rw [show k.impl.is_signing_key = decide (k.algorithm ∈ signingTags) by
      unfold PublicKeyTrait.is_signing_key SpecKey.impl signingTags
      cases k.algorithm <;> simp] at h
    simp at h
    exact h hmem
  simp [SpecKey.impl, htag]

/-- Witness for C4: the X25519 sample key is not signing-capable, and
`verify_signature` on it returns the algorithm-mismatch failure. -/
theorem verify_signature_mismatch_on_incapable_witness :
    sampleX25519.impl.verify_signature 8 [1, 2] [3, 4] = .error .MismatchedAlgorithm :=
  verify_signature_mismatch_on_incapable sampleX25519 (by decide) 8 [1, 2] [3, 4]

/-- C5: on every key whose algorithm tag is not encryption-capable, `encrypt`
fails with the algorithm-mismatch condition, for every random source, plaintext
and requested session-key type. -/
theorem encrypt_mismatch_on_incapable (k : SpecKey)
    (h : k.impl.is_encryption_key = false) :
    ∀ (rng : Rng) (plain : List Nat) (typ : EskType),
      k.impl.encrypt rng plain typ = .error .MismatchedAlgorithm := by
  intro rng plain typ
  have htag : k.algorithm ∉ encryptionTags := by
    intro hmem
    rw [show k.impl.is_encryption_key = decide (k.algorithm ∈ encryptionTags) by
      unfold PublicKeyTrait.is_encryption_key SpecKey.impl encryptionTags
      cases k.algorithm <;> simp] at h
    simp at h
    exact h hmem
  simp [SpecKey.impl, htag]

/-- Witness for C5: the DSA sample key is not encryption-capable, and `encrypt`
on it returns the algorithm-mismatch failure. -/
theorem encrypt_mismatch_on_incapable_witness :
    sampleDSA.impl.encrypt 0 [1, 2, 3] 1 = .error .MismatchedAlgorithm :=
  encrypt_mismatch_on_incapable sampleDSA (by decide) 0 [1, 2, 3] 1

/-- C6: `serialize_for_hashing` is deterministic and depends only on public
material: on the same key it writes identical bytes into any two fresh sinks,
and two keys agreeing on all public fields (version, algorithm, creation time,
expiration, public parameters) write identical bytes regardless of their
private component or collaborator cores. -/
theorem serialize_for_hashing_stable_public_only (k k' : SpecKey)
    (hv : k.version = k'.version) (ha : k.algorithm = k'.algorithm)
    (hc : k.created_at = k'.created_at) (he : k.expiration = k'.expiration)
    (hp : k.pub_params = k'.pub_params) :
    (∀ writer : Writer,
      k.impl.serialize_for_hashing writer = k.impl.serialize_for_hashing writer) ∧
    (∀ writer : Writer,
      k.impl.serialize_for_hashing writer = k'.impl.serialize_for_hashing writer) := by
  constructor
  · intro writer; rfl
  · intro writer
    simp [SpecKey.impl, SpecKey.pubBytes, hv, ha, hc, he, hp]

/-- Witness for C6: the two Ed25519 sample keys share all public fields while
differing in private material and cores, and serialize identically into the
empty sink. -/
theorem serialize_for_hashing_stable_public_only_witness :
    (∀ writer : Writer,
      sampleEd25519.impl.serialize_for_hashing writer =
        sampleEd25519.impl.serialize_for_hashing writer) ∧
    (∀ writer : Writer,
      sampleEd25519.impl.serialize_for_hashing writer =
        sampleEd25519Twin.impl.serialize_for_hashing writer) :=
  serialize_for_hashing_stable_public_only sampleEd25519 sampleEd25519Twin
    rfl rfl rfl rfl rfl

/-- C7: the capability classification is a function of the algorithm tag alone:
any two key handles whose `algorithm` accessor returns the same tag agree on
`is_signing_key` and on `is_encryption_key`, whatever their other fields. -/
theorem classification_depends_only_on_tag (k k' : PublicKeyTrait)
    (h : k.algorithm = k'.algorithm) :
    k.is_signing_key = k'.is_signing_key ∧
    k.is_encryption_key = k'.is_encryption_key := by
  unfold PublicKeyTrait.is_signing_key PublicKeyTrait.is_encryption_key
  rw [h]
  exact ⟨rfl, rfl⟩

/-- Witness for C7: the two Ed25519 sample keys have the same tag and their
classifications agree. -/
theorem classification_depends_only_on_tag_witness :
    sampleEd25519.impl.is_signing_key = sampleEd25519Twin.impl.is_signing_key ∧
    sampleEd25519.impl.is_encryption_key = sampleEd25519Twin.impl.is_encryption_key :=
  classification_depends_only_on_tag sampleEd25519.impl sampleEd25519Twin.impl rfl

/-- C8: every algorithm tag of the closed enumeration satisfies at least one of
the two classifier predicates: no enumerated algorithm is capable of neither
signing nor encryption. -/
theorem no_tag_has_neither_capability (k : PublicKeyTrait) :
    k.is_signing_key = true ∨ k.is_encryption_key = true := by
  unfold PublicKeyTrait.is_signing_key PublicKeyTrait.is_encryption_key
  cases k.algorithm <;> simp

/-- C9: the classifier predicates are reference-transparent through the
borrowed-handle implementation, although that implementation does not
re-declare them: their default bodies consult only the forwarded `algorithm`
accessor, so they agree on a borrowed view and on the referent. -/
theorem borrow_preserves_classification (k : PublicKeyTrait) :
    (borrow k).is_signing_key = k.is_signing_key ∧
    (borrow k).is_encryption_key = k.is_encryption_key :=
  ⟨rfl, rfl⟩

/-- C10: the classifiers default to false for unlisted tags: any key whose tag
is not among the `matches!` patterns of `is_signing_key` gets
`is_signing_key = false`, and any key whose tag is not among the `matches!`
patterns of `is_encryption_key` gets `is_encryption_key = false` — never
capable by default. -/
theorem unlisted_tags_classified_incapable (k : PublicKeyTrait) :
    (k.algorithm ∉ signingTags → k.is_signing_key = false) ∧
    (k.algorithm ∉ encryptionTags → k.is_encryption_key = false) := by
  constructor
  · intro h
    unfold PublicKeyTrait.is_signing_key
    cases htag : k.algorithm <;> first
      | rfl
      | (exact absurd (htag ▸ h) (by simp [signingTags]))
  · intro h
    unfold PublicKeyTrait.is_encryption_key
    cases htag : k.algorithm <;> first
      | rfl
      | (exact absurd (htag ▸ h) (by simp [encryptionTags]))

/-- Witness for C10: X25519 is not among the signing patterns and classifies as
not signing-capable; DSA is not among the encryption patterns and classifies as
not encryption-capable. -/
theorem unlisted_tags_classified_incapable_witness :
    sampleX25519.impl.is_signing_key = false ∧
    sampleDSA.impl.is_encryption_key = false :=
  ⟨(unlisted_tags_classified_incapable sampleX25519.impl).1 (by decide),
   (unlisted_tags_classified_incapable sampleDSA.impl).2 (by decide)⟩

end Rpgp
